import Mathlib

/-!
Shallow embedding of `scripts/fetch_covid_projects_from_db.py`.

The script ingests rows from an Oracle query (17 columns, in the order
datahub, umbrella_project_id, project_id, first_created, study_id,
study_title, sample_count, run_count, center_name, project_taxon_id,
project_scientific_name, sample_taxon_id, sample_scientific_name,
p.status_id, avg(e.status_id), avg(sm.status_id), avg(r.status_id)),
normalizes each row, derives a visibility status, classifies the row into
one of five logs, and writes per-log reports.

Values are modelled by the sum type `Value` (Python `None`, strings,
integers, rationals for the averaged status columns, and dates).
Python truthiness and `==` across these types are modelled explicitly.
-/

/-- A dynamic value as it appears in a fetched row: Python `None`, a string,
an int, a numeric average (Oracle `avg` comes back fractional), or a date. -/
inductive Value where
  | vnull : Value
  | vstr : String → Value
  | vint : Int → Value
  | vrat : ℚ → Value
  | vdate : Nat → Nat → Nat → Value
deriving DecidableEq, Repr

/-- Python truthiness: `None`, the empty string, and numeric zero are falsy;
every date object is truthy. Models `not x` in the source. -/
def Value.falsy : Value → Bool
  | .vnull => true
  | .vstr s => s.isEmpty
  | .vint n => n == 0
  | .vrat q => q == 0
  | .vdate _ _ _ => false

/-- Python `==` across the value types: values of different kinds compare
unequal, except that an int and a rational compare numerically
(`4 == 4.0` is true in Python). -/
def pyEq : Value → Value → Bool
  | .vnull, .vnull => true
  | .vstr a, .vstr b => a == b
  | .vint a, .vint b => a == b
  | .vrat a, .vrat b => a == b
  | .vint a, .vrat b => Rat.ofInt a == b
  | .vrat a, .vint b => a == Rat.ofInt b
  | .vdate a b c, .vdate d e f => a == d && b == e && c == f
  | _, _ => false

/-- Source line 144: `'NULL' if (not x or x == '') else x`. -/
def normVal (x : Value) : Value :=
  if x.falsy || pyEq x (.vstr "") then .vstr "NULL" else x

/-- Source line 144 applied across the tuple:
`['NULL' if (not x or x == '') else x for x in list(row)]`. -/
def normalizeRow (row : List Value) : List Value :=
  row.map normVal

/-- Source lines 147-155: derive the status string from
`project_status, exp_status, sample_status, run_status = row[13:]`. -/
def statusOf (p e s r : Value) : String :=
  if ¬ (pyEq p (.vint 4) = true) then "private"
  else if pyEq e (.vint 4) && pyEq s (.vint 4) && pyEq r (.vint 4) then "public"
  else "part private"

/-- Source line 106: `sars_tax_id = '2697049'` (a string constant). -/
def sars_tax_id : Value := .vstr "2697049"

/-- Source line 106: `human_tax_id = '9606'` (a string constant). -/
def human_tax_id : Value := .vstr "9606"

/-- Does `needle` match at the head of `hay`? -/
def charsStart : List Char → List Char → Bool
  | [], _ => true
  | _ :: _, [] => false
  | a :: as, b :: bs => a == b && charsStart as bs

/-- Does `needle` occur inside `hay`? -/
def charsHave (needle : List Char) : List Char → Bool
  | [] => needle.isEmpty
  | c :: t => charsStart needle (c :: t) || charsHave needle t

/-- Python `needle in hay` on strings (substring containment). -/
def pyIn (needle hay : String) : Bool :=
  charsHave needle.data hay.data

/-- Source lines 166-167: `row[10] if row[10] else ''` — take the
scientific-name field, defaulting a falsy value to the empty string.
After normalization the field is never falsy (nulls became the truthy
string `'NULL'`), so the guard is vacuous there; a truthy non-string in
this column would raise a TypeError at the subsequent `in` check in the
source and never occurs (the column is a string), so it is modelled as
the empty string. -/
def sciStr (v : Value) : String :=
  if v.falsy then ""
  else match v with
    | .vstr s => s
    | _ => ""

/-- The five accumulator logs of the script (source line 105). -/
inductive Category where
  | log1 | log2 | log3 | log4 | log5
deriving DecidableEq, Repr

/-- Source line 161: `project_taxon_id == sars_tax_id or sample_taxon_id == sars_tax_id`,
with `project_taxon_id = row[9]` and `sample_taxon_id = row[11]`. -/
def isSars (row : List Value) : Bool :=
  pyEq (row.getD 9 .vnull) sars_tax_id || pyEq (row.getD 11 .vnull) sars_tax_id

/-- Source line 163: `project_taxon_id == human_tax_id or sample_taxon_id == human_tax_id`. -/
def isHuman (row : List Value) : Bool :=
  pyEq (row.getD 9 .vnull) human_tax_id || pyEq (row.getD 11 .vnull) human_tax_id

/-- Source line 168: `'virus' in project_scientific_name or 'virus' in sample_scientific_name`,
with the names taken from `row[10]` and `row[12]` through the falsy guard. -/
def hasVirus (row : List Value) : Bool :=
  pyIn "virus" (sciStr (row.getD 10 .vnull)) || pyIn "virus" (sciStr (row.getD 12 .vnull))

/-- Source line 170: `'metagenom' in project_scientific_name or 'metagenom' in sample_scientific_name`. -/
def hasMetagenom (row : List Value) : Bool :=
  pyIn "metagenom" (sciStr (row.getD 10 .vnull)) || pyIn "metagenom" (sciStr (row.getD 12 .vnull))

/-- Source lines 158-173: the if/elif chain that picks the log for a row. -/
def classify (row : List Value) : Category :=
  if isSars row then .log1
  else if isHuman row then .log4
  else if hasVirus row then .log2
  else if hasMetagenom row then .log3
  else .log5

/-- The number of selected columns in the SQL query (source lines 81-85). -/
def expectedLen : Nat := 17

/-- Source lines 138-173, one loop iteration: normalize the tuple, unpack
`row[13:]` into the four status codes (a ValueError — fatal, uncaught —
unless the row has exactly 17 fields), fold the derived status back in by
`row[13:] = [this_status]`, and classify the resulting 14-field record. -/
def processRow (raw : List Value) : Except String (List Value × Category) :=
  let row := normalizeRow raw
  if row.length = expectedLen then
    let p := row.getD 13 .vnull
    let e := row.getD 14 .vnull
    let s := row.getD 15 .vnull
    let r := row.getD 16 .vnull
    let row2 := row.take 13 ++ [.vstr (statusOf p e s r)]
    Except.ok (row2, classify row2)
  else
    Except.error "ValueError: cannot unpack row[13:] into 4 status fields"

/-- The five module-level accumulator lists (source line 105). -/
structure Logs where
  log1 : List (List Value)
  log2 : List (List Value)
  log3 : List (List Value)
  log4 : List (List Value)
  log5 : List (List Value)
deriving DecidableEq, Repr

/-- The empty accumulators at job start. -/
def Logs.empty : Logs := ⟨[], [], [], [], []⟩

/-- Read one accumulator. -/
def Logs.get (st : Logs) : Category → List (List Value)
  | .log1 => st.log1
  | .log2 => st.log2
  | .log3 => st.log3
  | .log4 => st.log4
  | .log5 => st.log5

/-- `logN.append(row)` for the chosen log. -/
def appendTo (st : Logs) (c : Category) (row : List Value) : Logs :=
  match c with
  | .log1 => { st with log1 := st.log1 ++ [row] }
  | .log2 => { st with log2 := st.log2 ++ [row] }
  | .log3 => { st with log3 := st.log3 ++ [row] }
  | .log4 => { st with log4 := st.log4 ++ [row] }
  | .log5 => { st with log5 := st.log5 ++ [row] }

/-- The fetch loop of `fetch_and_filter_projects`: process the rows in
order, appending each to its log; an uncaught exception on any row aborts
the whole pass. -/
def fetchLoop (st : Logs) : List (List Value) → Except String Logs
  | [] => .ok st
  | raw :: rest =>
    match processRow raw with
    | .error e => .error e
    | .ok pr => fetchLoop (appendTo st pr.2 pr.1) rest

/-- Source `fetch_and_filter_projects` (lines 136-173): run the loop over
the fetched rows starting from the empty accumulators. -/
def fetch_and_filter_projects (rows : List (List Value)) : Except String Logs :=
  fetchLoop Logs.empty rows

/-- Source lines 198-201: a record matches the filter dict when
`l[i] != filter[i]` holds for no filter entry. -/
def matchesFilter (fil : List (Nat × Value)) (l : List Value) : Bool :=
  fil.all (fun iv => pyEq (l.getD iv.1 .vnull) iv.2)

/-- Source line 203: `proj_list[l[2]] = 1` — inserting an existing key into
a Python dict keeps its original (first-seen) position, a new key is
appended at the end. -/
def dictInsert (acc : List Value) (k : Value) : List Value :=
  if acc.any (fun y => pyEq y k) then acc else acc ++ [k]

/-- Fold `dictInsert` over a list: the distinct elements in order of first
occurrence, exactly the key sequence of the Python dict built by the loop. -/
def dedupFirst (xs : List Value) : List Value :=
  xs.foldl dictInsert []

/-- Source `project_list_str` (lines 195-205), at the level of the dict
keys: walk the log, keep `l[2]` (the project accession) of every record
matching the filter, deduplicated with first-seen order preserved.  The
source then joins these keys with newlines. -/
def project_list_keys (log : List (List Value)) (fil : List (Nat × Value)) : List Value :=
  log.foldl (fun acc l => if matchesFilter fil l then dictInsert acc (l.getD 2 .vnull) else acc) []

/-- Render a value for joining into the list-file string. Accessions are
strings; a non-string key would raise a TypeError in the source join. -/
def Value.asStr : Value → String
  | .vstr s => s
  | _ => ""

/-- Source line 205: `"\n".join(proj_list)`. -/
def project_list_str (log : List (List Value)) (fil : List (Nat × Value)) : String :=
  String.intercalate "\n" ((project_list_keys log fil).map Value.asStr)

/-- Source write_logs line 233: the no-umbrella list filters on
`{1: 'NULL'}` (umbrella_project_id is index 1). -/
def noUmbrellaFilter : List (Nat × Value) := [(1, .vstr "NULL")]

/-- Source write_logs line 237: the no-datahub list filters on
`{0: 'NULL', 13: 'public'}` (datahub is index 0, status is index 13). -/
def noDatahubFilter : List (Nat × Value) := [(0, .vstr "NULL"), (13, .vstr "public")]

/-- Three-letter month abbreviations as produced by `%b` in the C locale. -/
def monthAbbrev : Nat → String
  | 1 => "Jan" | 2 => "Feb" | 3 => "Mar" | 4 => "Apr"
  | 5 => "May" | 6 => "Jun" | 7 => "Jul" | 8 => "Aug"
  | 9 => "Sep" | 10 => "Oct" | 11 => "Nov" | 12 => "Dec"
  | _ => ""

/-- Zero-padded two-digit rendering, as `%d` and `%y` produce. -/
def twoDigit (n : Nat) : String :=
  if n < 10 then "0" ++ toString n else toString n

/-- Source line 183: `i[3].strftime("%d-%b-%y")` on a date
(day, month, year). -/
def strftimeDMY (day month year : Nat) : String :=
  twoDigit day ++ "-" ++ monthAbbrev month ++ "-" ++ twoDigit (year % 100)

/-- Python `str(j)` on the values a rendered cell can hold. `str(None)` is
`'None'`, but the falsy guard in the source intercepts it; a date in any
column other than `first_created` does not occur, and the averaged-status
columns are gone by rendering time, so their renderings are schematic. -/
def pyStr : Value → String
  | .vnull => "None"
  | .vstr s => s
  | .vint n => toString n
  | .vrat q => toString q
  | .vdate d m y => toString y ++ "-" ++ twoDigit m ++ "-" ++ twoDigit d ++ " 00:00:00"

/-- Source lines 182-184, one row of `log_to_str`: replace `i[3]` by its
`%d-%b-%y` rendering (a non-date there would raise AttributeError in the
source and is modelled as pass-through), then render every cell with
`str(j) if j else 'NULL'`.  The source joins these cells with tabs. -/
def log_to_str_row (i : List Value) : List String :=
  let i2 := i.set 3 (match i.getD 3 .vnull with
    | .vdate d m y => .vstr (strftimeDMY d m y)
    | v => v)
  i2.map (fun j => if j.falsy then "NULL" else pyStr j)

/-- Source line 229: `pd.DataFrame(log, columns = file_header)` — the sheet
written to the workbook holds the record values unchanged; `log_to_str` is
not called on the writing path. -/
def sheetCells (log : List (List Value)) : List (List Value) :=
  log

/-- Source lines 220-223: the fixed column header of every sheet. -/
def file_header : List String :=
  ["datahub", "umbrella_project_id", "project_id", "first_created", "study_id",
   "study_title", "sample_count", "run_count", "center_name", "project_taxon_id",
   "project_scientific_name", "sample_taxon_id", "sample_scientific_name", "project_status"]

/-- Source lines 253-257: the five category file prefixes (also the sheet names). -/
def filePrefixes : List String :=
  ["log1.sars-cov-2", "log2.other_viruses", "log3.metagenomes", "log4.human", "log5.other_hosts"]

/-- The output directory plus the 16 artifacts of the claim: the shared
workbook, the five sheets, and the two accession-list files per category
(source lines 230-237 and 251-258). -/
def claimArtifacts (outdir : String) : List String :=
  [outdir, outdir ++ "/covid_logs.xlsx"]
    ++ filePrefixes
    ++ filePrefixes.map (fun p => outdir ++ "/" ++ p ++ ".projects.no_umbrella.list")
    ++ filePrefixes.map (fun p => outdir ++ "/" ++ p ++ ".projects.public.no_datahub.list")

/-- Everything a successful run creates, including the stray `<prefix>.tsv`
files that `write_logs` opens in the working directory (source line 225). -/
def jobOutputs (outdir : String) : List String :=
  claimArtifacts outdir ++ filePrefixes.map (fun p => p ++ ".tsv")

/-- Source `__main__` (lines 242-258): connect and fetch first; the output
directory and every file are created only after `fetch_and_filter_projects`
returned.  `source` is the row stream, or the connectivity/query error it
raised; any uncaught exception during ingestion propagates and nothing is
written. -/
def runJob (outdir : String) (source : Except String (List (List Value))) :
    Except String (Logs × List String) :=
  match source with
  | .error e => .error e
  | .ok rows =>
    match fetch_and_filter_projects rows with
    | .error e => .error e
    | .ok logs => .ok (logs, jobOutputs outdir)

/-- The files and directories a run leaves behind: none when the job
aborted before the writing phase. -/
def outputsOf (outdir : String) (source : Except String (List (List Value))) : List String :=
  match runJob outdir source with
  | .ok pr => pr.2
  | .error _ => []

/-- A raw source row whose scientific-name columns are null and whose
taxon ids match nothing: classified into the default log. -/
def exRowNullSci : List Value :=
  [.vnull, .vnull, .vstr "PRJEB1", .vdate 5 2 21, .vstr "ERP1", .vstr "a title",
   .vint 2, .vint 3, .vstr "EBI", .vstr "562", .vnull, .vstr "562", .vnull,
   .vint 4, .vrat (mkRat 4 1), .vrat (mkRat 4 1), .vrat (mkRat 4 1)]

/-- A status-resolved record (14 fields) whose `first_created` is a date. -/
def exRecDate : List Value :=
  [.vstr "NULL", .vstr "NULL", .vstr "PRJEB2", .vdate 1 1 21, .vstr "ERP2", .vstr "t",
   .vint 1, .vint 1, .vstr "EBI", .vstr "NULL", .vstr "NULL", .vstr "NULL", .vstr "NULL",
   .vstr "public"]

/-- A record whose taxon-id fields are the integers 2697049 and 9606
(as the database driver delivers NUMBER columns), not strings. -/
def exRecIntTax : List Value :=
  [.vstr "NULL", .vstr "NULL", .vstr "PRJEB3", .vdate 1 1 21, .vstr "ERP3", .vstr "t",
   .vint 1, .vint 1, .vstr "EBI", .vint 2697049, .vstr "NULL", .vint 9606, .vstr "NULL",
   .vstr "public"]

/-- Record with accession PRJEB9, no umbrella, public, no datahub. -/
def recB : List Value :=
  [.vstr "NULL", .vstr "NULL", .vstr "PRJEB9", .vdate 2 3 21, .vstr "ERP9", .vstr "tB",
   .vint 1, .vint 1, .vstr "EBI", .vstr "NULL", .vstr "NULL", .vstr "NULL", .vstr "NULL",
   .vstr "public"]

/-- Record with accession PRJEB1 (alphabetically before PRJEB9), no
umbrella, private status, no datahub. -/
def recA : List Value :=
  [.vstr "NULL", .vstr "NULL", .vstr "PRJEB1", .vdate 3 3 21, .vstr "ERP1", .vstr "tA",
   .vint 1, .vint 1, .vstr "EBI", .vstr "NULL", .vstr "NULL", .vstr "NULL", .vstr "NULL",
   .vstr "private"]

/-- Record with the same accession PRJEB9 but inside an umbrella project
and linked to a datahub. -/
def recBumb : List Value :=
  [.vstr "hub1", .vstr "PRJEB40349", .vstr "PRJEB9", .vdate 2 3 21, .vstr "ERP9", .vstr "tB",
   .vint 1, .vint 1, .vstr "EBI", .vstr "NULL", .vstr "NULL", .vstr "NULL", .vstr "NULL",
   .vstr "public"]

/-- A record tagged with both the SARS taxon id (project) and the human
taxon id (sample): matches rule 1 and rule 2 of the classifier at once. -/
def exRecBothTax : List Value :=
  [.vstr "NULL", .vstr "NULL", .vstr "PRJEB4", .vdate 1 1 21, .vstr "ERP4", .vstr "t",
   .vint 1, .vint 1, .vstr "EBI", .vstr "2697049", .vstr "Severe acute respiratory syndrome coronavirus 2",
   .vstr "9606", .vstr "Homo sapiens", .vstr "public"]

/-! ## Helper lemmas -/

theorem length_normalizeRow (row : List Value) : (normalizeRow row).length = row.length := by
  simp [normalizeRow]

theorem getD_append_at {α : Type} (a : List α) (x d : α) :
    (a ++ [x]).getD a.length d = x := by
  induction a with
  | nil => rfl
  | cons h t ih => simp [ih]

theorem processRow_not17 {raw : List Value} (h : raw.length ≠ expectedLen) :
    processRow raw = .error "ValueError: cannot unpack row[13:] into 4 status fields" := by
  unfold processRow
  simp [length_normalizeRow, h]

theorem processRow_ok_shape {raw : List Value} {row : List Value} {c : Category}
    (h : processRow raw = .ok (row, c)) :
    raw.length = expectedLen ∧
    row = (normalizeRow raw).take 13 ++
      [.vstr (statusOf ((normalizeRow raw).getD 13 .vnull) ((normalizeRow raw).getD 14 .vnull)
        ((normalizeRow raw).getD 15 .vnull) ((normalizeRow raw).getD 16 .vnull))] := by
  by_cases hl : raw.length = expectedLen
  · refine ⟨hl, ?_⟩
    unfold processRow at h
    simp [length_normalizeRow, hl] at h
    simpa using h.1.symm
  · rw [processRow_not17 hl] at h
    exact absurd h (by simp)

theorem fetchLoop_ok_mem {rows : List (List Value)} {st logs : Logs}
    (h : fetchLoop st rows = .ok logs) :
    ∀ raw ∈ rows, raw.length = expectedLen := by
  induction rows generalizing st with
  | nil => simp
  | cons r rs ih =>
    intro raw hr
    unfold fetchLoop at h
    cases hp : processRow r with
    | error e =>
      rw [hp] at h
      exact absurd h (by simp)
    | ok pr =>
      rw [hp] at h
      rcases List.mem_cons.mp hr with heq | hmem
      · subst heq
        rcases pr with ⟨prow, pc⟩
        exact (processRow_ok_shape hp).1
      · exact ih h raw hmem

theorem dictInsert_pairwise {acc : List Value} {k : Value}
    (h : acc.Pairwise fun a b => pyEq a b = false) :
    (dictInsert acc k).Pairwise (fun a b => pyEq a b = false) := by
  unfold dictInsert
  by_cases hmem : (acc.any fun y => pyEq y k) = true
  · simp [hmem, h]
  · simp only [hmem, if_false, Bool.false_eq_true]
    rw [List.pairwise_append]
    refine ⟨h, by simp, ?_⟩
    intro a ha b hb
    simp only [List.mem_singleton] at hb
    subst hb
    simp [List.any_eq_true] at hmem
    exact hmem a ha

theorem foldl_dictInsert_pairwise (xs : List Value) (acc : List Value)
    (h : acc.Pairwise fun a b => pyEq a b = false) :
    (xs.foldl dictInsert acc).Pairwise (fun a b => pyEq a b = false) := by
  induction xs generalizing acc with
  | nil => exact h
  | cons x t ih => exact ih (dictInsert acc x) (dictInsert_pairwise h)

theorem dedupFirst_pairwise (xs : List Value) :
    (dedupFirst xs).Pairwise (fun a b => pyEq a b = false) :=
  foldl_dictInsert_pairwise xs [] (by simp)

theorem foldl_dictInsert_split (xs : List Value) (acc : List Value) :
    ∃ ys, xs.foldl dictInsert acc = acc ++ ys ∧ ys.Sublist xs := by
  induction xs generalizing acc with
  | nil => exact ⟨[], by simp, by simp⟩
  | cons x t ih =>
    simp only [List.foldl_cons]
    by_cases hx : (acc.any fun y => pyEq y x) = true
    · have hd : dictInsert acc x = acc := by simp [dictInsert, hx]
      rw [hd]
      obtain ⟨ys, h1, h2⟩ := ih acc
      exact ⟨ys, h1, h2.trans (List.sublist_cons_self x t)⟩
    · have hd : dictInsert acc x = acc ++ [x] := by simp [dictInsert, hx]
      rw [hd]
      obtain ⟨ys, h1, h2⟩ := ih (acc ++ [x])
      exact ⟨x :: ys, by simpa using h1, List.Sublist.cons₂ x h2⟩

theorem dedupFirst_sublist (xs : List Value) : (dedupFirst xs).Sublist xs := by
  obtain ⟨ys, h1, h2⟩ := foldl_dictInsert_split xs []
  simpa [dedupFirst, h1] using h2

theorem foldl_filter_map (fil : List (Nat × Value)) (log : List (List Value))
    (acc : List Value) :
    log.foldl (fun acc l => if matchesFilter fil l then dictInsert acc (l.getD 2 .vnull) else acc) acc
      = ((log.filter (matchesFilter fil)).map (fun l => l.getD 2 .vnull)).foldl dictInsert acc := by
  induction log generalizing acc with
  | nil => rfl
  | cons l t ih =>
    by_cases hm : matchesFilter fil l = true
    · simp only [List.foldl_cons, List.filter_cons_of_pos hm, List.map_cons, hm, if_true]
      exact ih (dictInsert acc (l.getD 2 .vnull))
    · simp only [List.foldl_cons, List.filter_cons_of_neg (by simpa using hm), hm, if_false]
      exact ih acc

theorem project_list_keys_eq (log : List (List Value)) (fil : List (Nat × Value)) :
    project_list_keys log fil
      = dedupFirst ((log.filter (matchesFilter fil)).map (fun l => l.getD 2 .vnull)) := by
  unfold project_list_keys dedupFirst
  exact foldl_filter_map fil log []

theorem matches_noUmbrella (l : List Value) :
    matchesFilter noUmbrellaFilter l = pyEq (l.getD 1 .vnull) (.vstr "NULL") := by
  simp [matchesFilter, noUmbrellaFilter]

theorem matches_noDatahub (l : List Value) :
    matchesFilter noDatahubFilter l
      = (pyEq (l.getD 0 .vnull) (.vstr "NULL") && pyEq (l.getD 13 .vnull) (.vstr "public")) := by
  simp [matchesFilter, noDatahubFilter]

theorem statusOf_mem (p e s r : Value) :
    statusOf p e s r = "private" ∨ statusOf p e s r = "public"
      ∨ statusOf p e s r = "part private" := by
  unfold statusOf
  by_cases h1 : pyEq p (.vint 4) = true
  · by_cases h2 : (pyEq e (.vint 4) && pyEq s (.vint 4) && pyEq r (.vint 4)) = true
    · simp [h1, h2]
    · simp [h1, h2]
  · simp [h1]

/-! ## Claim theorems -/

/-- Claim C1: the derived status is computed exactly by the source rule —
`private` when the project sub-status is not 4, `public` when the project
sub-status is 4 and the experiment, sample and run sub-statuses all equal
4 exactly, `part private` otherwise; the status of every successfully
processed record is one of exactly these three values, and a fractional
averaged sub-status such as 3.5 under project status 4 yields
`part private`. -/
theorem c1_status_resolver :
    (∀ p e s r : Value, pyEq p (.vint 4) = false → statusOf p e s r = "private")
  ∧ (∀ p e s r : Value, pyEq p (.vint 4) = true →
      (pyEq e (.vint 4) && pyEq s (.vint 4) && pyEq r (.vint 4)) = true →
      statusOf p e s r = "public")
  ∧ (∀ p e s r : Value, pyEq p (.vint 4) = true →
      (pyEq e (.vint 4) && pyEq s (.vint 4) && pyEq r (.vint 4)) = false →
      statusOf p e s r = "part private")
  ∧ (∀ p e s r : Value,
      statusOf p e s r = "private" ∨ statusOf p e s r = "public"
        ∨ statusOf p e s r = "part private")
  ∧ (∀ (raw row : List Value) (c : Category), processRow raw = .ok (row, c) →
      row.getD 13 .vnull = .vstr "private" ∨ row.getD 13 .vnull = .vstr "public"
        ∨ row.getD 13 .vnull = .vstr "part private")
  ∧ statusOf (.vint 4) (.vrat (mkRat 4 1)) (.vrat (mkRat 7 2)) (.vrat (mkRat 4 1))
      = "part private" := by
  refine ⟨?_, ?_, ?_, statusOf_mem, ?_, by decide⟩
  · intro p e s r h
    simp [statusOf, h]
  · intro p e s r h1 h2
    simp [statusOf, h1, h2]
  · intro p e s r h1 h2
    simp [statusOf, h1, h2]
  · intro raw row c h
    obtain ⟨hl, hrow⟩ := processRow_ok_shape h
    have ha : ((normalizeRow raw).take 13).length = 13 := by
      simp [List.length_take, length_normalizeRow, hl, expectedLen]
    have hg := getD_append_at ((normalizeRow raw).take 13)
      (Value.vstr (statusOf ((normalizeRow raw).getD 13 .vnull) ((normalizeRow raw).getD 14 .vnull)
        ((normalizeRow raw).getD 15 .vnull) ((normalizeRow raw).getD 16 .vnull))) .vnull
    rw [ha] at hg
    rw [hrow, hg]
    rcases statusOf_mem ((normalizeRow raw).getD 13 .vnull) ((normalizeRow raw).getD 14 .vnull)
      ((normalizeRow raw).getD 15 .vnull) ((normalizeRow raw).getD 16 .vnull) with h | h | h
    · exact Or.inl (by rw [h])
    · exact Or.inr (Or.inl (by rw [h]))
    · exact Or.inr (Or.inr (by rw [h]))

theorem c1_status_resolver_witness :
    statusOf (.vstr "NULL") (.vint 4) (.vint 4) (.vint 4) = "private"
  ∧ statusOf (.vint 4) (.vrat (mkRat 4 1)) (.vint 4) (.vrat (mkRat 4 1)) = "public"
  ∧ statusOf (.vint 4) (.vint 4) (.vrat (mkRat 7 2)) (.vint 4) = "part private" :=
  ⟨c1_status_resolver.1 _ _ _ _ (by decide),
   c1_status_resolver.2.1 _ _ _ _ (by decide) (by decide),
   c1_status_resolver.2.2.1 _ _ _ _ (by decide) (by decide)⟩

/-- Claim C3 counterexample: the normalizer does not pass a numeric zero
through unchanged — `0` is falsy in Python, so `'NULL' if (not x or x == '')
else x` replaces it by the sentinel. -/
theorem c3_zero_not_preserved :
    normVal (.vint 0) = .vstr "NULL" ∧ Value.vint 0 ≠ Value.vstr "NULL"
  ∧ normalizeRow [.vint 0] = [.vstr "NULL"]
  ∧ normalizeRow [.vint 0] ≠ [.vint 0] := by
  refine ⟨by decide, by decide, by decide, by decide⟩

theorem pyEq_empty_of_falsy {x : Value} (h : x.falsy = false) : pyEq x (.vstr "") = false := by
  cases x with
  | vnull => simp [Value.falsy] at h
  | vstr s =>
    show (s == "") = false
    have hne : s ≠ "" := by
      intro he
      subst he
      exact absurd h (by decide)
    exact beq_eq_false_iff_ne.mpr hne
  | vint n => rfl
  | vrat q => rfl
  | vdate d m y => rfl

/-- Claim C3 (amended): the Row Normalizer replaces exactly the falsy
values — absent values, empty strings and numeric zeroes — with the null
sentinel, and passes every truthy value (non-empty string, non-zero
number, date) through unchanged; it performs no other transformation. -/
theorem c3_normalizer_falsy :
    (∀ row : List Value, normalizeRow row = row.map normVal)
  ∧ (∀ x : Value, x.falsy = true → normVal x = .vstr "NULL")
  ∧ (∀ x : Value, x.falsy = false → normVal x = x)
  ∧ (∀ x : Value, x.falsy = true ↔
      (x = .vnull ∨ x = .vstr "" ∨ x = .vint 0 ∨ x = .vrat 0)) := by
  refine ⟨fun row => rfl, ?_, ?_, ?_⟩
  · intro x h
    simp [normVal, h]
  · intro x h
    simp [normVal, h, pyEq_empty_of_falsy h]
  · intro x
    cases x with
    | vnull => simp [Value.falsy]
    | vstr s =>
      simp only [Value.falsy]
      constructor
      · intro h
        exact Or.inr (Or.inl (by rw [(String.isEmpty_iff s).mp h]))
      · intro h
        rcases h with h | h | h | h
        · exact absurd h (by simp)
        · exact (String.isEmpty_iff s).mpr (by injection h)
        · exact absurd h (by simp)
        · exact absurd h (by simp)
    | vint n => simp [Value.falsy]
    | vrat q => simp [Value.falsy]
    | vdate d m y => simp [Value.falsy]

theorem c3_normalizer_falsy_witness :
    normVal .vnull = .vstr "NULL"
  ∧ normVal (.vint 0) = .vstr "NULL"
  ∧ normVal (.vstr "Homo sapiens") = .vstr "Homo sapiens"
  ∧ normVal (.vint 7) = .vint 7
  ∧ normVal (.vdate 1 1 21) = .vdate 1 1 21 :=
  ⟨c3_normalizer_falsy.2.1 _ (by decide),
   c3_normalizer_falsy.2.1 _ (by decide),
   c3_normalizer_falsy.2.2.1 _ (by decide),
   c3_normalizer_falsy.2.2.1 _ (by decide),
   c3_normalizer_falsy.2.2.1 _ (by decide)⟩

/-- Claim C4: a raw row whose length is not the expected seventeen columns
makes the loop iteration raise an uncaught ValueError — the pass aborts,
the row is never status-resolved or classified, and a successful
`fetch_and_filter_projects` run certifies that every fetched row had
exactly seventeen fields. -/
theorem c4_bad_row_shape :
    (∀ raw : List Value, raw.length ≠ expectedLen →
      processRow raw = .error "ValueError: cannot unpack row[13:] into 4 status fields")
  ∧ (∀ (rows : List (List Value)) (logs : Logs),
      fetch_and_filter_projects rows = .ok logs →
      ∀ raw ∈ rows, raw.length = expectedLen) := by
  constructor
  · intro raw h
    exact processRow_not17 h
  · intro rows logs h raw hm
    unfold fetch_and_filter_projects at h
    exact fetchLoop_ok_mem h raw hm

theorem c4_bad_row_shape_witness :
    processRow [Value.vstr "PRJEB1"]
      = .error "ValueError: cannot unpack row[13:] into 4 status fields" :=
  c4_bad_row_shape.1 [Value.vstr "PRJEB1"] (by decide)

/-- Claim C7: when both scientific-name fields hold the null sentinel,
neither the `'virus'` nor the `'metagenom'` substring rule matches
(the sentinel string `'NULL'` contains neither), so the record lands in
the default log unless a taxon-id rule matched first; a fully null-named
row is processed without failure. -/
theorem c7_null_scientific_names :
    (∀ row : List Value, row.getD 10 .vnull = .vstr "NULL" →
      row.getD 12 .vnull = .vstr "NULL" →
      hasVirus row = false ∧ hasMetagenom row = false
        ∧ (isSars row = false → isHuman row = false → classify row = .log5))
  ∧ pyIn "virus" "NULL" = false
  ∧ pyIn "metagenom" "NULL" = false
  ∧ processRow exRowNullSci
      = .ok ([.vstr "NULL", .vstr "NULL", .vstr "PRJEB1", .vdate 5 2 21, .vstr "ERP1",
          .vstr "a title", .vint 2, .vint 3, .vstr "EBI", .vstr "562", .vstr "NULL",
          .vstr "562", .vstr "NULL", .vstr "public"], .log5) := by
  refine ⟨?_, by decide, by decide, by rfl⟩
  intro row h10 h12
  have hv : hasVirus row = false := by
    unfold hasVirus
    rw [h10, h12]
    decide
  have hm : hasMetagenom row = false := by
    unfold hasMetagenom
    rw [h10, h12]
    decide
  refine ⟨hv, hm, ?_⟩
  intro hs hh
  simp [classify, hs, hh, hv, hm]

theorem c7_null_scientific_names_witness :
    hasVirus exRecDate = false ∧ hasMetagenom exRecDate = false
  ∧ classify exRecDate = .log5 := by
  obtain ⟨h1, h2, h3⟩ := c7_null_scientific_names.1 exRecDate (by decide) (by decide)
  exact ⟨h1, h2, h3 (by decide) (by decide)⟩

/-- Claim C10: the taxon-id rules compare against the string constants
`'2697049'` and `'9606'`; an integer taxon id (as a NUMBER column arrives)
never equals either string under Python equality, so such a record skips
both taxon rules and falls through to the substring rules or the default
log. -/
theorem c10_numeric_taxon_ids :
    sars_tax_id = .vstr "2697049"
  ∧ human_tax_id = .vstr "9606"
  ∧ (∀ n : Int, pyEq (.vint n) sars_tax_id = false ∧ pyEq (.vint n) human_tax_id = false)
  ∧ (∀ row : List Value, (∃ a, row.getD 9 .vnull = .vint a) →
      (∃ b, row.getD 11 .vnull = .vint b) →
      isSars row = false ∧ isHuman row = false
        ∧ (classify row = .log2 ∨ classify row = .log3 ∨ classify row = .log5))
  ∧ classify exRecIntTax = .log5 := by
  refine ⟨rfl, rfl, fun n => ⟨rfl, rfl⟩, ?_, by decide⟩
  rintro row ⟨a, ha⟩ ⟨b, hb⟩
  have hs : isSars row = false := by
    unfold isSars
    rw [ha, hb]
    rfl
  have hh : isHuman row = false := by
    unfold isHuman
    rw [ha, hb]
    rfl
  refine ⟨hs, hh, ?_⟩
  by_cases hv : hasVirus row = true
  · exact Or.inl (by simp [classify, hs, hh, hv])
  · by_cases hm2 : hasMetagenom row = true
    · exact Or.inr (Or.inl (by simp [classify, hs, hh, hv, hm2]))
    · exact Or.inr (Or.inr (by simp [classify, hs, hh, hv, hm2]))

theorem c10_numeric_taxon_ids_witness :
    isSars exRecIntTax = false ∧ isHuman exRecIntTax = false
  ∧ (classify exRecIntTax = .log2 ∨ classify exRecIntTax = .log3
      ∨ classify exRecIntTax = .log5) :=
  c10_numeric_taxon_ids.2.2.2.1 exRecIntTax ⟨2697049, by decide⟩ ⟨9606, by decide⟩

/-- Claim C2: the classifier is a first-match chain over the five rules in
source order — SARS taxon id, human taxon id, `'virus'` substring,
`'metagenom'` substring, default — each record gets exactly one of the
five categories, a record matching both taxon rules is `sars-cov-2`
(never `human`), and appending places the record in exactly its one
category collection, leaving the other four untouched. -/
theorem c2_classifier_partition :
    (∀ row : List Value, classify row = .log1 ↔ isSars row = true)
  ∧ (∀ row : List Value, classify row = .log4 ↔ (isSars row = false ∧ isHuman row = true))
  ∧ (∀ row : List Value, classify row = .log2 ↔
      (isSars row = false ∧ isHuman row = false ∧ hasVirus row = true))
  ∧ (∀ row : List Value, classify row = .log3 ↔
      (isSars row = false ∧ isHuman row = false ∧ hasVirus row = false
        ∧ hasMetagenom row = true))
  ∧ (∀ row : List Value, classify row = .log5 ↔
      (isSars row = false ∧ isHuman row = false ∧ hasVirus row = false
        ∧ hasMetagenom row = false))
  ∧ (∀ row : List Value, isSars row = true → isHuman row = true → classify row = .log1)
  ∧ (∀ (st : Logs) (c : Category) (row : List Value),
      (appendTo st c row).get c = st.get c ++ [row]
        ∧ ∀ c2 : Category, c2 ≠ c → (appendTo st c row).get c2 = st.get c2) := by
  have main : ∀ row : List Value,
      (classify row = .log1 ↔ isSars row = true)
    ∧ (classify row = .log4 ↔ (isSars row = false ∧ isHuman row = true))
    ∧ (classify row = .log2 ↔
        (isSars row = false ∧ isHuman row = false ∧ hasVirus row = true))
    ∧ (classify row = .log3 ↔
        (isSars row = false ∧ isHuman row = false ∧ hasVirus row = false
          ∧ hasMetagenom row = true))
    ∧ (classify row = .log5 ↔
        (isSars row = false ∧ isHuman row = false ∧ hasVirus row = false
          ∧ hasMetagenom row = false)) := by
    intro row
    cases h1 : isSars row <;> cases h2 : isHuman row <;>
      cases h3 : hasVirus row <;> cases h4 : hasMetagenom row <;>
      simp [classify, h1, h2, h3, h4]
  refine ⟨fun row => (main row).1, fun row => (main row).2.1, fun row => (main row).2.2.1,
    fun row => (main row).2.2.2.1, fun row => (main row).2.2.2.2, ?_, ?_⟩
  · intro row h1 _
    simp [classify, h1]
  · intro st c row
    constructor
    · cases c <;> simp [appendTo, Logs.get]
    · intro c2 hne
      cases c <;> cases c2 <;> simp_all [appendTo, Logs.get]

theorem c2_classifier_partition_witness :
    classify exRecBothTax = .log1 ∧ isHuman exRecBothTax = true :=
  ⟨c2_classifier_partition.2.2.2.2.2.1 exRecBothTax (by decide) (by decide), by decide⟩

/-- Claim C5: the no-umbrella accession list is exactly the deduplicated,
first-occurrence-ordered sequence of `project_id` values of the records
whose `umbrella_project_id` is the null sentinel; duplicates are
suppressed at their first position and the order is arrival order, not
alphabetical. -/
theorem c5_no_umbrella_list :
    (∀ log : List (List Value), project_list_keys log noUmbrellaFilter
        = dedupFirst ((log.filter (fun l => pyEq (l.getD 1 .vnull) (.vstr "NULL"))).map
            (fun l => l.getD 2 .vnull)))
  ∧ (∀ log : List (List Value),
      (project_list_keys log noUmbrellaFilter).Pairwise (fun a b => pyEq a b = false))
  ∧ (∀ xs : List Value, (dedupFirst xs).Sublist xs)
  ∧ project_list_keys [recB, recA, recB, recBumb] noUmbrellaFilter
      = [.vstr "PRJEB9", .vstr "PRJEB1"] := by
  have hfil : ∀ log : List (List Value),
      log.filter (matchesFilter noUmbrellaFilter)
        = log.filter (fun l => pyEq (l.getD 1 .vnull) (.vstr "NULL")) := by
    intro log
    exact List.filter_congr (fun l _ => matches_noUmbrella l)
  refine ⟨?_, ?_, dedupFirst_sublist, by decide⟩
  · intro log
    rw [project_list_keys_eq, hfil]
  · intro log
    rw [project_list_keys_eq]
    exact dedupFirst_pairwise _

/-- Claim C6: the no-datahub accession list is exactly the deduplicated,
first-occurrence-ordered sequence of `project_id` values of the records
whose `datahub` is the null sentinel AND whose derived status is
`public`; a record failing either conjunct never matches the filter. -/
theorem c6_no_datahub_list :
    (∀ log : List (List Value), project_list_keys log noDatahubFilter
        = dedupFirst ((log.filter (fun l => pyEq (l.getD 0 .vnull) (.vstr "NULL")
            && pyEq (l.getD 13 .vnull) (.vstr "public"))).map (fun l => l.getD 2 .vnull)))
  ∧ (∀ l : List Value, matchesFilter noDatahubFilter l
      = (pyEq (l.getD 0 .vnull) (.vstr "NULL") && pyEq (l.getD 13 .vnull) (.vstr "public")))
  ∧ (∀ log : List (List Value),
      (project_list_keys log noDatahubFilter).Pairwise (fun a b => pyEq a b = false))
  ∧ project_list_keys [recB, recA, recBumb, recB] noDatahubFilter = [.vstr "PRJEB9"] := by
  have hfil : ∀ log : List (List Value),
      log.filter (matchesFilter noDatahubFilter)
        = log.filter (fun l => pyEq (l.getD 0 .vnull) (.vstr "NULL")
            && pyEq (l.getD 13 .vnull) (.vstr "public")) := by
    intro log
    exact List.filter_congr (fun l _ => matches_noDatahub l)
  refine ⟨?_, matches_noDatahub, ?_, by decide⟩
  · intro log
    rw [project_list_keys_eq, hfil]
  · intro log
    rw [project_list_keys_eq]
    exact dedupFirst_pairwise _

theorem twoDigit_len : ∀ n, n < 100 → (twoDigit n).length = 2 := by decide

theorem monthAbbrev_len : ∀ m, m < 13 → 1 ≤ m → (monthAbbrev m).length = 3 := by decide

theorem strftimeDMY_len (d m y : Nat) (hd : d < 100) (hm1 : 1 ≤ m) (hm2 : m ≤ 12) :
    (strftimeDMY d m y).length = 9 := by
  unfold strftimeDMY
  rw [String.length_append, String.length_append, String.length_append, String.length_append,
    twoDigit_len d hd, twoDigit_len (y % 100) (Nat.mod_lt y (by norm_num)),
    monthAbbrev_len m (by omega) hm1]
  decide

/-- Claim C8 counterexample: the sheet actually written by `write_logs`
receives the record values through `pd.DataFrame(log, ...)` unchanged —
the `first_created` cell stays the raw date value and is not the
`%d-%b-%y` string; the `log_to_str` renderer that does format dates is
not on the writing path. -/
theorem c8_sheet_date_not_formatted :
    (sheetCells [exRecDate]).getD 0 [] = exRecDate
  ∧ exRecDate.getD 3 .vnull = .vdate 1 1 21
  ∧ exRecDate.getD 3 .vnull ≠ .vstr (strftimeDMY 1 1 21)
  ∧ strftimeDMY 1 1 21 = "01-Jan-21" := by
  refine ⟨by decide, by decide, by decide, by decide⟩

/-- Claim C8 (amended): the writing path passes the normalized record
values into the sheet unchanged, so null sentinels do appear as the
literal string `NULL` (the sentinel is that string) but `first_created`
is written as the raw date value; the fixed-width `%d-%b-%y` rendering
(two-digit day, three-letter month, two-digit year — nine characters)
and falsy-to-`NULL` rendering belong to `log_to_str`, which the writing
path does not call. -/
theorem c8_sheet_render :
    (∀ log : List (List Value), sheetCells log = log)
  ∧ (∀ (row : List Value) (d m y : Nat), 3 < row.length →
      d < 100 → 1 ≤ m → m ≤ 12 → row.getD 3 .vnull = .vdate d m y →
      (log_to_str_row row).getD 3 "" = strftimeDMY d m y)
  ∧ (∀ d m y : Nat, d < 100 → 1 ≤ m → m ≤ 12 → (strftimeDMY d m y).length = 9)
  ∧ (∀ v : Value, v.falsy = true → (if v.falsy then "NULL" else pyStr v) = "NULL")
  ∧ log_to_str_row exRecDate
      = ["NULL", "NULL", "PRJEB2", "01-Jan-21", "ERP2", "t", "1", "1", "EBI",
         "NULL", "NULL", "NULL", "NULL", "public"] := by
  refine ⟨fun log => rfl, ?_, strftimeDMY_len, ?_, by decide⟩
  · intro row d m y hlen hd hm1 hm2 h3
    have hne : strftimeDMY d m y ≠ "" := by
      intro he
      have h9 := strftimeDMY_len d m y hd hm1 hm2
      rw [he] at h9
      simp at h9
    have hf : Value.falsy (.vstr (strftimeDMY d m y)) = false := by
      show (strftimeDMY d m y).isEmpty = false
      cases hie : (strftimeDMY d m y).isEmpty
      · rfl
      · exact absurd ((String.isEmpty_iff _).mp hie) hne
    unfold log_to_str_row
    rw [h3]
    rw [List.getD_eq_getElem?_getD, List.getElem?_map, List.getElem?_set_eq_of_lt _ hlen]
    simp [hf, pyStr]
  · intro v h
    simp [h]

theorem c8_sheet_render_witness :
    (log_to_str_row exRecDate).getD 3 "" = strftimeDMY 1 1 21
  ∧ (strftimeDMY 28 12 2021).length = 9 :=
  ⟨c8_sheet_render.2.1 exRecDate 1 1 21 (by decide) (by decide) (by decide) (by decide)
     (by decide),
   c8_sheet_render.2.2.1 28 12 2021 (by decide) (by decide) (by decide)⟩

/-- Claim C9: the job connects and ingests before any output exists — a
failure of the source (connection or query) or of any row's processing
makes the run produce nothing at all, while a successful run produces the
output directory and all 16 artifacts; no partial per-category output can
come from a failed run. -/
theorem c9_all_or_nothing :
    (∀ outdir e : String, outputsOf outdir (.error e) = [])
  ∧ (∀ (outdir : String) (rows : List (List Value)) (err : String),
      fetch_and_filter_projects rows = .error err → outputsOf outdir (.ok rows) = [])
  ∧ (∀ (outdir : String) (rows : List (List Value)) (logs : Logs),
      fetch_and_filter_projects rows = .ok logs →
        outputsOf outdir (.ok rows) = jobOutputs outdir)
  ∧ (∀ (outdir : String) (source : Except String (List (List Value))),
      outputsOf outdir source = [] ∨ outputsOf outdir source = jobOutputs outdir)
  ∧ (∀ outdir : String, claimArtifacts outdir ⊆ jobOutputs outdir)
  ∧ (∀ outdir : String, (claimArtifacts outdir).length = 17) := by
  refine ⟨fun outdir e => rfl, ?_, ?_, ?_, ?_, ?_⟩
  · intro outdir rows err h
    simp [outputsOf, runJob, h]
  · intro outdir rows logs h
    simp [outputsOf, runJob, h]
  · intro outdir source
    cases source with
    | error e => exact Or.inl rfl
    | ok rows =>
      cases h : fetch_and_filter_projects rows with
      | error e => exact Or.inl (by simp [outputsOf, runJob, h])
      | ok logs => exact Or.inr (by simp [outputsOf, runJob, h])
  · intro outdir
    unfold jobOutputs
    exact List.subset_append_left _ _
  · intro outdir
    simp [claimArtifacts, filePrefixes]

theorem c9_all_or_nothing_witness :
    outputsOf "outdir" (.ok [[Value.vint 0]]) = []
  ∧ outputsOf "outdir" (.ok [exRowNullSci]) = jobOutputs "outdir" :=
  ⟨c9_all_or_nothing.2.1 "outdir" [[Value.vint 0]]
     "ValueError: cannot unpack row[13:] into 4 status fields" (by rfl),
   c9_all_or_nothing.2.2.1 "outdir" [exRowNullSci]
     ⟨[], [], [], [],
      [[.vstr "NULL", .vstr "NULL", .vstr "PRJEB1", .vdate 5 2 21, .vstr "ERP1",
        .vstr "a title", .vint 2, .vint 3, .vstr "EBI", .vstr "562", .vstr "NULL",
        .vstr "562", .vstr "NULL", .vstr "public"]]⟩ (by rfl)⟩
